import Mathlib

/-!
Verification of the SYCL tensor-core joint-matrix layer
(`sycl/include/sycl/ext/oneapi/matrix/matrix-tensorcore.hpp`,
`sycl/include/sycl/ext/oneapi/matrix/matrix-unified.hpp`) and of the HIP
peer-access adapter (`sycl/plugins/unified_runtime/ur/adapters/hip/usm_p2p.cpp`).

The C++ layer is compile-time template metaprogramming: the fragment table
(`__SYCL_JOINT_MATRIX_OVERLOAD*` macro expansions) is embedded as the function
`fragResolve`, the `if constexpr` dispatch chains of
`joint_matrix_load_impl::load`, `joint_matrix_store_impl::store` and
`joint_matrix_mad_impl::mad` are embedded as the selection functions
`selectLoadOpcode` / `selectStoreOpcode` / `selectMadOpcode`, and the
preprocessor guards (`__SYCL_DEVICE_ONLY__` / `__NVPTX__`) are embedded as a
three-valued execution context.  A C++ instantiation that fails to compile
(an incomplete `joint_matrix` specialization, or an intrinsic call whose
argument types do not match the builtin signature) is modelled as an
`UnsupportedConfiguration` outcome: the failure is raised before any hardware
instruction is issued.  An instantiation that compiles but whose
`if constexpr` chain selects no intrinsic is modelled as a `silent` outcome.
-/

namespace TensorCoreSpec

/-- Element types appearing in the joint-matrix fragment table of
matrix-tensorcore.hpp. -/
inductive ElemType
  | bfloat16
  | half
  | uint16
  | int8
  | uint8
  | int32
  | float
  | double
deriving DecidableEq, Repr

/-- matrix_use from matrix-tensorcore.hpp (enum class matrix_use). -/
inductive MatrixUse
  | a
  | b
  | accumulator
deriving DecidableEq, Repr

/-- matrix_layout from matrix-tensorcore.hpp (enum class matrix_layout). -/
inductive MatrixLayout
  | row_major
  | col_major
  | packed_a
  | packed_b
deriving DecidableEq, Repr

/-- The joint_matrix specializations, and all the impl specializations, carry
an enable_if requiring the layout to be row_major or col_major; any other
layout leaves only the undefined primary template. -/
def layoutOK (l : MatrixLayout) : Prop :=
  l = MatrixLayout.row_major ∨ l = MatrixLayout.col_major

instance (l : MatrixLayout) : Decidable (layoutOK l) := by
  unfold layoutOK; infer_instance

/-- get_layout_id (matrix-tensorcore.hpp lines 137-150): the template has
explicit specializations only for row_major (0) and col_major (1); any other
instantiation does not exist, modelled as none. -/
def get_layout_id : MatrixLayout → Option Int
  | MatrixLayout.row_major => some 0
  | MatrixLayout.col_major => some 1
  | _ => none

/-- get_layout_pair_id (matrix-tensorcore.hpp lines 414-444): four explicit
specializations; any other instantiation does not exist, modelled as none. -/
def get_layout_pair_id : MatrixLayout → MatrixLayout → Option Int
  | MatrixLayout.row_major, MatrixLayout.row_major => some 0
  | MatrixLayout.row_major, MatrixLayout.col_major => some 1
  | MatrixLayout.col_major, MatrixLayout.row_major => some 2
  | MatrixLayout.col_major, MatrixLayout.col_major => some 3
  | _, _ => none

/-- Fragment layout registry: transcription of the
`__SYCL_JOINT_MATRIX_OVERLOAD` / `__SYCL_JOINT_MATRIX_OVERLOAD_ARR` macro
expansions (matrix-tensorcore.hpp lines 46-120), the table mapping
(element type, matrix use, rows, cols) to the storage element type and the
per-lane slot count of the fragment.  The `_ARR` entries store the logical
type itself (`sycl::marray<type, size>`), the plain entries store the listed
`frag_type`.  Entries commented out in the source are absent here.  A
combination not in the table has no joint_matrix specialization (incomplete
type): none. -/
def fragResolve (t : ElemType) (u : MatrixUse) (r c : Nat) : Option (ElemType × Nat) :=
  match t, u with
  | ElemType.bfloat16, MatrixUse.a =>
      if r = 16 ∧ c = 16 then some (ElemType.bfloat16, 8)
      else if r = 8 ∧ c = 16 then some (ElemType.bfloat16, 4)
      else if r = 32 ∧ c = 16 then some (ElemType.bfloat16, 16)
      else none
  | ElemType.bfloat16, MatrixUse.b =>
      if r = 16 ∧ c = 16 then some (ElemType.bfloat16, 8)
      else if r = 16 ∧ c = 32 then some (ElemType.bfloat16, 16)
      else if r = 16 ∧ c = 8 then some (ElemType.bfloat16, 4)
      else none
  | ElemType.half, MatrixUse.a =>
      if r = 8 ∧ c = 16 then some (ElemType.half, 16)
      else if r = 32 ∧ c = 16 then some (ElemType.half, 16)
      else if r = 16 ∧ c = 16 then some (ElemType.half, 16)
      else none
  | ElemType.half, MatrixUse.b =>
      if r = 16 ∧ c = 32 then some (ElemType.half, 16)
      else if r = 16 ∧ c = 8 then some (ElemType.half, 16)
      else if r = 16 ∧ c = 16 then some (ElemType.half, 16)
      else none
  | ElemType.half, MatrixUse.accumulator =>
      if r = 8 ∧ c = 32 then some (ElemType.half, 8)
      else if r = 32 ∧ c = 8 then some (ElemType.half, 8)
      else if r = 16 ∧ c = 16 then some (ElemType.half, 8)
      else none
  | ElemType.double, MatrixUse.a =>
      if r = 8 ∧ c = 4 then some (ElemType.double, 1) else none
  | ElemType.double, MatrixUse.b =>
      if r = 4 ∧ c = 8 then some (ElemType.double, 1) else none
  | ElemType.double, MatrixUse.accumulator =>
      if r = 8 ∧ c = 8 then some (ElemType.double, 2) else none
  | ElemType.uint16, MatrixUse.a =>
      if r = 8 ∧ c = 16 then some (ElemType.int32, 2)
      else if r = 32 ∧ c = 16 then some (ElemType.int32, 8)
      else if r = 16 ∧ c = 16 then some (ElemType.int32, 4)
      else none
  | ElemType.uint16, MatrixUse.b =>
      if r = 16 ∧ c = 32 then some (ElemType.int32, 8)
      else if r = 16 ∧ c = 8 then some (ElemType.int32, 2)
      else if r = 16 ∧ c = 16 then some (ElemType.int32, 4)
      else none
  | ElemType.float, MatrixUse.accumulator =>
      if r = 8 ∧ c = 32 then some (ElemType.float, 8)
      else if r = 32 ∧ c = 8 then some (ElemType.float, 8)
      else if r = 16 ∧ c = 16 then some (ElemType.float, 8)
      else none
  | ElemType.int8, MatrixUse.a =>
      if r = 8 ∧ c = 16 then some (ElemType.int32, 1)
      else if r = 32 ∧ c = 16 then some (ElemType.int32, 4)
      else if r = 16 ∧ c = 16 then some (ElemType.int32, 2)
      else none
  | ElemType.int8, MatrixUse.b =>
      if r = 16 ∧ c = 32 then some (ElemType.int32, 4)
      else if r = 16 ∧ c = 8 then some (ElemType.int32, 1)
      else if r = 16 ∧ c = 16 then some (ElemType.int32, 2)
      else none
  | ElemType.uint8, MatrixUse.a =>
      if r = 8 ∧ c = 16 then some (ElemType.int32, 1)
      else if r = 32 ∧ c = 16 then some (ElemType.int32, 4)
      else if r = 16 ∧ c = 16 then some (ElemType.int32, 2)
      else none
  | ElemType.uint8, MatrixUse.b =>
      if r = 16 ∧ c = 32 then some (ElemType.int32, 4)
      else if r = 16 ∧ c = 8 then some (ElemType.int32, 1)
      else if r = 16 ∧ c = 16 then some (ElemType.int32, 2)
      else none
  | ElemType.int32, MatrixUse.accumulator =>
      if r = 8 ∧ c = 32 then some (ElemType.int32, 8)
      else if r = 32 ∧ c = 8 then some (ElemType.int32, 8)
      else if r = 16 ∧ c = 16 then some (ElemType.int32, 8)
      else none
  | _, _ => none

/-- A joint_matrix type exists only for layouts row_major / col_major
(enable_if on every specialization); this wraps the table lookup with that
constraint. -/
def fragResolveL (t : ElemType) (u : MatrixUse) (r c : Nat) (l : MatrixLayout) :
    Option (ElemType × Nat) :=
  if layoutOK l then fragResolve t u r c else none

/-- Hardware load intrinsics named in joint_matrix_load_impl::load
(matrix-tensorcore.hpp lines 162-317); constructor names drop the leading
double underscore of the C++ builtin names. -/
inductive LoadOpcode
  | mma_bf16_m16n16k16_ld_a
  | mma_bf16_m16n16k16_ld_b
  | mma_bf16_m8n32k16_ld_a
  | mma_bf16_m8n32k16_ld_b
  | mma_bf16_m32n8k16_ld_a
  | mma_bf16_m32n8k16_ld_b
  | imma_m16n16k16_ld_a_u8
  | imma_m16n16k16_ld_b_u8
  | imma_m8n32k16_ld_a_u8
  | imma_m8n32k16_ld_b_u8
  | imma_m32n8k16_ld_a_u8
  | imma_m32n8k16_ld_b_u8
  | imma_m16n16k16_ld_a_s8
  | imma_m16n16k16_ld_b_s8
  | imma_m8n32k16_ld_a_s8
  | imma_m8n32k16_ld_b_s8
  | imma_m32n8k16_ld_a_s8
  | imma_m32n8k16_ld_b_s8
  | hmma_m16n16k16_ld_a
  | hmma_m16n16k16_ld_b
  | hmma_m16n16k16_ld_c_f16
  | hmma_m8n32k16_ld_a
  | hmma_m8n32k16_ld_b
  | hmma_m8n32k16_ld_c_f16
  | hmma_m32n8k16_ld_a
  | hmma_m32n8k16_ld_b
  | hmma_m32n8k16_ld_c_f16
  | imma_m16n16k16_ld_c
  | imma_m8n32k16_ld_c
  | imma_m32n8k16_ld_c
  | hmma_m16n16k16_ld_c_f32
  | hmma_m8n32k16_ld_c_f32
  | hmma_m32n8k16_ld_c_f32
  | dmma_m8n8k4_ld_a
  | dmma_m8n8k4_ld_b
  | dmma_m8n8k4_ld_c
deriving DecidableEq, Repr

/-- Hardware store intrinsics named in joint_matrix_store_impl::store
(matrix-tensorcore.hpp lines 340-388). -/
inductive StoreOpcode
  | hmma_m16n16k16_st_c_f32
  | imma_m16n16k16_st_c_i32
  | hmma_m16n16k16_st_c_f16
  | hmma_m8n32k16_st_c_f32
  | imma_m8n32k16_st_c_i32
  | hmma_m8n32k16_st_c_f16
  | hmma_m32n8k16_st_c_f32
  | imma_m32n8k16_st_c_i32
  | hmma_m32n8k16_st_c_f16
  | dmma_m8n8k4_st_c_f64
deriving DecidableEq, Repr

/-- Hardware multiply-accumulate intrinsics named in
joint_matrix_mad_impl::mad (matrix-tensorcore.hpp lines 465-572). -/
inductive MadOpcode
  | imma_m16n16k16_mma_s8
  | imma_m16n16k16_mma_u8
  | hmma_m16n16k16_mma_f32f32
  | hmma_m16n16k16_mma_f16f16
  | mma_bf16_m16n16k16_mma_f32
  | imma_m8n32k16_mma_s8
  | imma_m8n32k16_mma_u8
  | hmma_m8n32k16_mma_f32f32
  | hmma_m8n32k16_mma_f16f16
  | mma_bf16_m8n32k16_mma_f32
  | imma_m32n8k16_mma_s8
  | imma_m32n8k16_mma_u8
  | hmma_m32n8k16_mma_f32f32
  | hmma_m32n8k16_mma_f16f16
  | mma_bf16_m32n8k16_mma_f32
  | dmma_m8n8k4_mma_f64
deriving DecidableEq, Repr

/-- Transcription of the `if constexpr` dispatch chain of
joint_matrix_load_impl::load (matrix-tensorcore.hpp lines 162-317): outer
dispatch on the element type, inner dispatch on (rows, cols) and, where the
source checks it, on the matrix use.  A fall-through of the source chain
(no intrinsic called) is none. -/
def selectLoadOpcode (t : ElemType) (u : MatrixUse) (r c : Nat) : Option LoadOpcode :=
  match t with
  | ElemType.uint16 | ElemType.bfloat16 =>
      if r = 16 ∧ c = 16 then
        match u with
        | MatrixUse.a => some LoadOpcode.mma_bf16_m16n16k16_ld_a
        | MatrixUse.b => some LoadOpcode.mma_bf16_m16n16k16_ld_b
        | MatrixUse.accumulator => none
      else if r = 8 ∧ c = 16 then some LoadOpcode.mma_bf16_m8n32k16_ld_a
      else if r = 16 ∧ c = 32 then some LoadOpcode.mma_bf16_m8n32k16_ld_b
      else if r = 32 ∧ c = 16 then some LoadOpcode.mma_bf16_m32n8k16_ld_a
      else if r = 16 ∧ c = 8 then some LoadOpcode.mma_bf16_m32n8k16_ld_b
      else none
  | ElemType.uint8 =>
      if r = 16 ∧ c = 16 then
        match u with
        | MatrixUse.a => some LoadOpcode.imma_m16n16k16_ld_a_u8
        | MatrixUse.b => some LoadOpcode.imma_m16n16k16_ld_b_u8
        | MatrixUse.accumulator => none
      else if r = 8 ∧ c = 16 then some LoadOpcode.imma_m8n32k16_ld_a_u8
      else if r = 16 ∧ c = 32 then some LoadOpcode.imma_m8n32k16_ld_b_u8
      else if r = 32 ∧ c = 16 then some LoadOpcode.imma_m32n8k16_ld_a_u8
      else if r = 16 ∧ c = 8 then some LoadOpcode.imma_m32n8k16_ld_b_u8
      else none
  | ElemType.int8 =>
      if r = 16 ∧ c = 16 then
        match u with
        | MatrixUse.a => some LoadOpcode.imma_m16n16k16_ld_a_s8
        | MatrixUse.b => some LoadOpcode.imma_m16n16k16_ld_b_s8
        | MatrixUse.accumulator => none
      else if r = 8 ∧ c = 16 then some LoadOpcode.imma_m8n32k16_ld_a_s8
      else if r = 16 ∧ c = 32 then some LoadOpcode.imma_m8n32k16_ld_b_s8
      else if r = 32 ∧ c = 16 then some LoadOpcode.imma_m32n8k16_ld_a_s8
      else if r = 16 ∧ c = 8 then some LoadOpcode.imma_m32n8k16_ld_b_s8
      else none
  | ElemType.half =>
      if r = 16 ∧ c = 16 then
        match u with
        | MatrixUse.a => some LoadOpcode.hmma_m16n16k16_ld_a
        | MatrixUse.b => some LoadOpcode.hmma_m16n16k16_ld_b
        | MatrixUse.accumulator => some LoadOpcode.hmma_m16n16k16_ld_c_f16
      else if r = 8 ∧ c = 16 then some LoadOpcode.hmma_m8n32k16_ld_a
      else if r = 16 ∧ c = 32 then some LoadOpcode.hmma_m8n32k16_ld_b
      else if r = 32 ∧ c = 16 then some LoadOpcode.hmma_m32n8k16_ld_a
      else if r = 16 ∧ c = 8 then some LoadOpcode.hmma_m32n8k16_ld_b
      else if r = 32 ∧ c = 8 then some LoadOpcode.hmma_m32n8k16_ld_c_f16
      else if r = 8 ∧ c = 32 then some LoadOpcode.hmma_m8n32k16_ld_c_f16
      else none
  | ElemType.int32 =>
      if r = 16 ∧ c = 16 then some LoadOpcode.imma_m16n16k16_ld_c
      else if r = 8 ∧ c = 32 then some LoadOpcode.imma_m8n32k16_ld_c
      else if r = 32 ∧ c = 8 then some LoadOpcode.imma_m32n8k16_ld_c
      else none
  | ElemType.float =>
      if r = 16 ∧ c = 16 then some LoadOpcode.hmma_m16n16k16_ld_c_f32
      else if r = 8 ∧ c = 32 then some LoadOpcode.hmma_m8n32k16_ld_c_f32
      else if r = 32 ∧ c = 8 then some LoadOpcode.hmma_m32n8k16_ld_c_f32
      else none
  | ElemType.double =>
      match u with
      | MatrixUse.a => some LoadOpcode.dmma_m8n8k4_ld_a
      | MatrixUse.b => some LoadOpcode.dmma_m8n8k4_ld_b
      | MatrixUse.accumulator => some LoadOpcode.dmma_m8n8k4_ld_c

/-- Transcription of the dispatch chain of joint_matrix_store_impl::store
(matrix-tensorcore.hpp lines 340-388): outer dispatch on (rows, cols), inner
`if constexpr` on the element type; the double intrinsic sits on the final
else branch, reached only when the shape matches none of the three listed
shapes. -/
def selectStoreOpcode (t : ElemType) (r c : Nat) : Option StoreOpcode :=
  if r = 16 ∧ c = 16 then
    match t with
    | ElemType.float => some StoreOpcode.hmma_m16n16k16_st_c_f32
    | ElemType.int32 => some StoreOpcode.imma_m16n16k16_st_c_i32
    | ElemType.half => some StoreOpcode.hmma_m16n16k16_st_c_f16
    | _ => none
  else if r = 8 ∧ c = 32 then
    match t with
    | ElemType.float => some StoreOpcode.hmma_m8n32k16_st_c_f32
    | ElemType.int32 => some StoreOpcode.imma_m8n32k16_st_c_i32
    | ElemType.half => some StoreOpcode.hmma_m8n32k16_st_c_f16
    | _ => none
  else if r = 32 ∧ c = 8 then
    match t with
    | ElemType.float => some StoreOpcode.hmma_m32n8k16_st_c_f32
    | ElemType.int32 => some StoreOpcode.imma_m32n8k16_st_c_i32
    | ElemType.half => some StoreOpcode.hmma_m32n8k16_st_c_f16
    | _ => none
  else
    match t with
    | ElemType.double => some StoreOpcode.dmma_m8n8k4_st_c_f64
    | _ => none

/-- Transcription of the dispatch chain of joint_matrix_mad_impl::mad
(matrix-tensorcore.hpp lines 465-572): outer dispatch on the (M, N, K)
shape, inner `if constexpr` on the multiplicand type T1 and, for half only,
on the accumulator type T2; the double intrinsic sits on the final else
branch.  A fall-through of the source chain (no intrinsic called, result
fragment left uninitialized) is none. -/
def selectMadOpcode (t1 t2 : ElemType) (M K N : Nat) : Option MadOpcode :=
  if M = 16 ∧ N = 16 ∧ K = 16 then
    match t1 with
    | ElemType.int8 => some MadOpcode.imma_m16n16k16_mma_s8
    | ElemType.uint8 => some MadOpcode.imma_m16n16k16_mma_u8
    | ElemType.half =>
        match t2 with
        | ElemType.float => some MadOpcode.hmma_m16n16k16_mma_f32f32
        | ElemType.half => some MadOpcode.hmma_m16n16k16_mma_f16f16
        | _ => none
    | ElemType.uint16 | ElemType.bfloat16 => some MadOpcode.mma_bf16_m16n16k16_mma_f32
    | _ => none
  else if M = 8 ∧ N = 32 ∧ K = 16 then
    match t1 with
    | ElemType.int8 => some MadOpcode.imma_m8n32k16_mma_s8
    | ElemType.uint8 => some MadOpcode.imma_m8n32k16_mma_u8
    | ElemType.half =>
        match t2 with
        | ElemType.float => some MadOpcode.hmma_m8n32k16_mma_f32f32
        | ElemType.half => some MadOpcode.hmma_m8n32k16_mma_f16f16
        | _ => none
    | ElemType.uint16 | ElemType.bfloat16 => some MadOpcode.mma_bf16_m8n32k16_mma_f32
    | _ => none
  else if M = 32 ∧ N = 8 ∧ K = 16 then
    match t1 with
    | ElemType.int8 => some MadOpcode.imma_m32n8k16_mma_s8
    | ElemType.uint8 => some MadOpcode.imma_m32n8k16_mma_u8
    | ElemType.uint16 | ElemType.bfloat16 => some MadOpcode.mma_bf16_m32n8k16_mma_f32
    | ElemType.half =>
        match t2 with
        | ElemType.float => some MadOpcode.hmma_m32n8k16_mma_f32f32
        | ElemType.half => some MadOpcode.hmma_m32n8k16_mma_f16f16
        | _ => none
    | _ => none
  else
    match t1 with
    | ElemType.double => some MadOpcode.dmma_m8n8k4_mma_f64
    | _ => none

/-- Error taxonomy of the matrix layer.  UnsupportedConfiguration models a
C++ compile-time rejection (incomplete joint_matrix specialization, or an
intrinsic call whose arguments cannot match the fixed builtin signature);
TypeMismatch models the rejection of mismatched multiplicand types;
HostExecution models the runtime_error thrown on the non-device path. -/
inductive MatrixError
  | UnsupportedConfiguration
  | TypeMismatch
  | HostExecution
deriving DecidableEq, Repr

/-- Outcome of a device-side joint_matrix_load instantiation. -/
inductive LoadOutcome
  | issued (op : LoadOpcode)
  | silent
  | err (e : MatrixError)
deriving DecidableEq, Repr

/-- Outcome of a device-side joint_matrix_store instantiation. -/
inductive StoreOutcome
  | issued (op : StoreOpcode)
  | silent
  | err (e : MatrixError)
deriving DecidableEq, Repr

/-- Outcome of a device-side joint_matrix_mad instantiation. -/
inductive MadOutcome
  | issued (op : MadOpcode)
  | silent
  | err (e : MatrixError)
deriving DecidableEq, Repr

/-- Modelled from the spec: the accumulator operand type of each MMA
intrinsic's fixed hardware signature (the builtin declarations live in the
compiler, outside the provided sources; the spec states that each opcode
corresponds 1:1 to a fixed instruction signature, and the intrinsic names
carry the accumulate type: s8/u8 variants accumulate in int32, f32 variants
in float, f16f16 variants in half, f64 in double).  An instantiation whose
accumulator fragment storage does not match this signature fails to compile,
i.e. is rejected before any instruction is issued. -/
def madOpcodeAccElem : MadOpcode → ElemType
  | MadOpcode.imma_m16n16k16_mma_s8 => ElemType.int32
  | MadOpcode.imma_m16n16k16_mma_u8 => ElemType.int32
  | MadOpcode.hmma_m16n16k16_mma_f32f32 => ElemType.float
  | MadOpcode.hmma_m16n16k16_mma_f16f16 => ElemType.half
  | MadOpcode.mma_bf16_m16n16k16_mma_f32 => ElemType.float
  | MadOpcode.imma_m8n32k16_mma_s8 => ElemType.int32
  | MadOpcode.imma_m8n32k16_mma_u8 => ElemType.int32
  | MadOpcode.hmma_m8n32k16_mma_f32f32 => ElemType.float
  | MadOpcode.hmma_m8n32k16_mma_f16f16 => ElemType.half
  | MadOpcode.mma_bf16_m8n32k16_mma_f32 => ElemType.float
  | MadOpcode.imma_m32n8k16_mma_s8 => ElemType.int32
  | MadOpcode.imma_m32n8k16_mma_u8 => ElemType.int32
  | MadOpcode.hmma_m32n8k16_mma_f32f32 => ElemType.float
  | MadOpcode.hmma_m32n8k16_mma_f16f16 => ElemType.half
  | MadOpcode.mma_bf16_m32n8k16_mma_f32 => ElemType.float
  | MadOpcode.dmma_m8n8k4_mma_f64 => ElemType.double

/-- Device-side joint_matrix_load: instantiating the call requires the
joint_matrix specialization to exist (fragResolveL; otherwise the C++ type
is incomplete and compilation fails: err UnsupportedConfiguration); when it
exists, the dispatch chain of joint_matrix_load_impl::load either issues an
intrinsic or falls through silently. -/
def joint_matrix_load_device (t : ElemType) (u : MatrixUse) (r c : Nat)
    (l : MatrixLayout) : LoadOutcome :=
  match fragResolveL t u r c l with
  | none => LoadOutcome.err MatrixError.UnsupportedConfiguration
  | some _ =>
      match selectLoadOpcode t u r c with
      | some op => LoadOutcome.issued op
      | none => LoadOutcome.silent

/-- Device-side joint_matrix_store: the source constrains the fragment to
matrix_use::accumulator in the signature. -/
def joint_matrix_store_device (t : ElemType) (r c : Nat)
    (l : MatrixLayout) : StoreOutcome :=
  match fragResolveL t MatrixUse.accumulator r c l with
  | none => StoreOutcome.err MatrixError.UnsupportedConfiguration
  | some _ =>
      match selectStoreOpcode t r c with
      | some op => StoreOutcome.issued op
      | none => StoreOutcome.silent

/-- Device-side joint_matrix_mad: instantiation requires all three fragment
types (A of shape M x K, B of shape K x N, accumulator of shape M x N) to
exist; the dispatch chain then either issues an intrinsic (whose fixed
accumulator signature must match T2, else compilation fails) or falls
through silently, returning the result fragment uninitialized. -/
def joint_matrix_mad_device (t1 t2 : ElemType) (M K N : Nat)
    (la lb lc : MatrixLayout) : MadOutcome :=
  if (fragResolveL t1 MatrixUse.a M K la).isSome ∧
      (fragResolveL t1 MatrixUse.b K N lb).isSome ∧
      (fragResolveL t2 MatrixUse.accumulator M N lc).isSome then
    match selectMadOpcode t1 t2 M K N with
    | some op =>
        if madOpcodeAccElem op = t2 then MadOutcome.issued op
        else MadOutcome.err MatrixError.UnsupportedConfiguration
    | none => MadOutcome.silent
  else MadOutcome.err MatrixError.UnsupportedConfiguration

/-- The complete list of (T1, T2, M, K, N) tuples for which all three
fragment types exist yet the mad dispatch chain selects no intrinsic, so the
instantiation compiles and silently returns an uninitialized fragment. -/
def madSilentTuples : List (ElemType × ElemType × Nat × Nat × Nat) :=
  [(ElemType.half, ElemType.int32, 16, 16, 16),
   (ElemType.half, ElemType.int32, 8, 16, 32),
   (ElemType.half, ElemType.int32, 32, 16, 8),
   (ElemType.bfloat16, ElemType.double, 8, 16, 8),
   (ElemType.half, ElemType.double, 8, 16, 8),
   (ElemType.uint16, ElemType.double, 8, 16, 8),
   (ElemType.int8, ElemType.double, 8, 16, 8),
   (ElemType.uint8, ElemType.double, 8, 16, 8)]

/-- C2: get_layout_id maps row_major to 0 and col_major to 1, and for every
layout pair on which both ids are defined, get_layout_pair_id is exactly the
canonical encoding 2 * id(A) + id(B). -/
theorem layout_pair_id_canonical :
    get_layout_id MatrixLayout.row_major = some 0 ∧
    get_layout_id MatrixLayout.col_major = some 1 ∧
    get_layout_pair_id MatrixLayout.row_major MatrixLayout.row_major = some 0 ∧
    get_layout_pair_id MatrixLayout.row_major MatrixLayout.col_major = some 1 ∧
    get_layout_pair_id MatrixLayout.col_major MatrixLayout.row_major = some 2 ∧
    get_layout_pair_id MatrixLayout.col_major MatrixLayout.col_major = some 3 ∧
    (∀ la lb ia ib, get_layout_id la = some ia → get_layout_id lb = some ib →
      get_layout_pair_id la lb = some (2 * ia + ib)) := by
  refine ⟨rfl, rfl, rfl, rfl, rfl, rfl, ?_⟩
  intro la lb ia ib ha hb
  cases la <;> cases lb <;>
    simp only [get_layout_id, get_layout_pair_id, Option.some.injEq,
      reduceCtorEq] at ha hb ⊢ <;> omega

/-- C2 witness: the canonical-encoding law applied at the concrete pair
(col_major, row_major). -/
theorem layout_pair_id_canonical_witness :
    get_layout_pair_id MatrixLayout.col_major MatrixLayout.row_major =
      some (2 * 1 + 0) :=
  layout_pair_id_canonical.2.2.2.2.2.2 MatrixLayout.col_major
    MatrixLayout.row_major 1 0 rfl rfl

/-- Every fragment in the table is covered by a branch of the load dispatch
chain: the table and the chain are transcribed from independent parts of the
source (the macro expansions and joint_matrix_load_impl::load), so this is
an exhaustive cross-check of the two. -/
theorem load_coverage : ∀ t u r c, (fragResolve t u r c).isSome = true →
    (selectLoadOpcode t u r c).isSome = true := by
  intro t u r c h
  cases t <;> cases u <;> simp only [fragResolve] at h <;> (try split_ifs at h) <;>
    simp_all [selectLoadOpcode]

/-- Every accumulator fragment in the table is covered by a branch of the
store dispatch chain. -/
theorem store_coverage : ∀ t r c,
    (fragResolve t MatrixUse.accumulator r c).isSome = true →
    (selectStoreOpcode t r c).isSome = true := by
  intro t r c h
  cases t <;> simp only [fragResolve] at h <;> (try split_ifs at h) <;>
    simp_all [selectStoreOpcode]

/-- joint_matrix_load never falls through silently: every instantiation
either issues a hardware instruction or is rejected as unsupported. -/
theorem load_dispatch_total : ∀ t u r c l,
    (∃ op, joint_matrix_load_device t u r c l = LoadOutcome.issued op) ∨
      joint_matrix_load_device t u r c l =
        LoadOutcome.err MatrixError.UnsupportedConfiguration := by
  intro t u r c l
  unfold joint_matrix_load_device fragResolveL
  by_cases hl : layoutOK l
  · simp only [if_pos hl]
    cases hfr : fragResolve t u r c with
    | none => simp
    | some fl =>
        have hcov := load_coverage t u r c (by simp [hfr])
        cases hsel : selectLoadOpcode t u r c with
        | none => rw [hsel] at hcov; simp at hcov
        | some op => exact Or.inl ⟨op, by simp [hsel]⟩
  · simp [if_neg hl]

/-- joint_matrix_store never falls through silently. -/
theorem store_dispatch_total : ∀ t r c l,
    (∃ op, joint_matrix_store_device t r c l = StoreOutcome.issued op) ∨
      joint_matrix_store_device t r c l =
        StoreOutcome.err MatrixError.UnsupportedConfiguration := by
  intro t r c l
  unfold joint_matrix_store_device fragResolveL
  by_cases hl : layoutOK l
  · simp only [if_pos hl]
    cases hfr : fragResolve t MatrixUse.accumulator r c with
    | none => simp
    | some fl =>
        have hcov := store_coverage t r c (by simp [hfr])
        cases hsel : selectStoreOpcode t r c with
        | none => rw [hsel] at hcov; simp at hcov
        | some op => exact Or.inl ⟨op, by simp [hsel]⟩
  · simp [if_neg hl]

set_option maxHeartbeats 4000000 in
/-- Exhaustive characterization of the silent fall-through of
joint_matrix_mad: the dispatch chain selects no intrinsic, yet all three
fragment types exist, exactly for the eight (T1, T2, M, K, N) tuples of
madSilentTuples (with valid layouts). -/
theorem mad_silent_char : ∀ t1 t2 M K N la lb lc,
    joint_matrix_mad_device t1 t2 M K N la lb lc = MadOutcome.silent ↔
      ((t1, t2, M, K, N) ∈ madSilentTuples ∧
        layoutOK la ∧ layoutOK lb ∧ layoutOK lc) := by
  intro t1 t2 M K N la lb lc
  constructor
  · intro h
    unfold joint_matrix_mad_device at h
    split_ifs at h with hfrag
    obtain ⟨hA, hB, hC⟩ := hfrag
    have hla : layoutOK la := by
      by_contra hx; simp [fragResolveL, hx] at hA
    have hlb : layoutOK lb := by
      by_contra hx; simp [fragResolveL, hx] at hB
    have hlc : layoutOK lc := by
      by_contra hx; simp [fragResolveL, hx] at hC
    simp only [fragResolveL, if_pos hla] at hA
    simp only [fragResolveL, if_pos hlb] at hB
    simp only [fragResolveL, if_pos hlc] at hC
    refine ⟨?_, hla, hlb, hlc⟩
    cases t1 <;> cases t2 <;> simp only [fragResolve] at hA hB hC <;>
      (try split_ifs at hA) <;> (try split_ifs at hB) <;> (try split_ifs at hC) <;>
      simp_all only [Option.isSome_none, Bool.false_eq_true, Option.isSome_some] <;>
      first
        | exact absurd h (by decide)
        | decide
        | omega
  · rintro ⟨hmem, hla, hlb, hlc⟩
    simp only [madSilentTuples, List.mem_cons, List.not_mem_nil, or_false,
      Prod.mk.injEq] at hmem
    rcases hla with rfl | rfl <;> rcases hlb with rfl | rfl <;> rcases hlc with rfl | rfl <;>
      rcases hmem with ⟨rfl, rfl, rfl, rfl, rfl⟩ | ⟨rfl, rfl, rfl, rfl, rfl⟩ |
        ⟨rfl, rfl, rfl, rfl, rfl⟩ | ⟨rfl, rfl, rfl, rfl, rfl⟩ | ⟨rfl, rfl, rfl, rfl, rfl⟩ |
        ⟨rfl, rfl, rfl, rfl, rfl⟩ | ⟨rfl, rfl, rfl, rfl, rfl⟩ | ⟨rfl, rfl, rfl, rfl, rfl⟩ <;>
      decide

/-- C1 (amended): joint_matrix_load and joint_matrix_store fail fast for
every combination with no hardware instruction (either a hardware
instruction is issued or the instantiation is rejected as an unsupported
configuration; no silent fall-through exists), and joint_matrix_mad does so
for every combination except exactly the eight tuples of madSilentTuples,
on which all three fragment types exist, no instruction is issued, no error
is reported, and the result fragment is returned uninitialized. -/
theorem joint_matrix_fail_fast :
    (∀ t u r c l,
      (∃ op, joint_matrix_load_device t u r c l = LoadOutcome.issued op) ∨
        joint_matrix_load_device t u r c l =
          LoadOutcome.err MatrixError.UnsupportedConfiguration) ∧
    (∀ t r c l,
      (∃ op, joint_matrix_store_device t r c l = StoreOutcome.issued op) ∨
        joint_matrix_store_device t r c l =
          StoreOutcome.err MatrixError.UnsupportedConfiguration) ∧
    (∀ t1 t2 M K N la lb lc,
      joint_matrix_mad_device t1 t2 M K N la lb lc = MadOutcome.silent ↔
        ((t1, t2, M, K, N) ∈ madSilentTuples ∧
          layoutOK la ∧ layoutOK lb ∧ layoutOK lc)) :=
  ⟨load_dispatch_total, store_dispatch_total, mad_silent_char⟩

/-- C1 counterexample: the instantiation T1 = half, T2 = int32, shape
16 x 16 x 16, all row_major: every fragment type exists, yet
joint_matrix_mad issues no instruction and reports no error, returning the
accumulator fragment uninitialized, contrary to the claim that every
combination without a hardware instruction reports an
unsupported-configuration error. -/
theorem joint_matrix_mad_silent_counterexample :
    joint_matrix_mad_device ElemType.half ElemType.int32 16 16 16
      MatrixLayout.row_major MatrixLayout.row_major MatrixLayout.row_major =
      MadOutcome.silent := by decide

/-- Little-endian bit-reinterpretation of a buffer of 16-bit values as
32-bit words, modelling `reinterpret_cast<int32_t const *>(src.get())` on a
uint16_t buffer (matrix-tensorcore.hpp line 168): word j holds element 2j
in its low half and element 2j+1 in its high half; no numeric conversion is
applied to either half. -/
def packU16PairsToWords : List Nat → List Nat
  | lo :: hi :: rest => (lo + 65536 * hi) :: packU16PairsToWords rest
  | [x] => [x]
  | [] => []

/-- The inverse view: a buffer of 32-bit words read back as 16-bit values
(low half first). -/
def unpackWordsToU16Pairs : List Nat → List Nat
  | w :: rest => w % 65536 :: w / 65536 :: unpackWordsToU16Pairs rest
  | [] => []

/-- Reading the repacked words back as 16-bit values restores the original
buffer exactly: the 2-into-1 repacking is a pure bit reinterpretation. -/
theorem repack_roundtrip : ∀ xs : List Nat, (∀ x ∈ xs, x < 65536) →
    xs.length % 2 = 0 →
    unpackWordsToU16Pairs (packU16PairsToWords xs) = xs
  | [], _, _ => rfl
  | [x], _, hlen => by simp at hlen
  | lo :: hi :: rest, hbound, hlen => by
      have hlo : lo < 65536 := hbound lo (by simp)
      have hhi : hi < 65536 := hbound hi (by simp)
      have ih := repack_roundtrip rest
        (fun x hx => hbound x (by simp [hx]))
        (by simp only [List.length_cons] at hlen; omega)
      simp only [packU16PairsToWords, unpackWordsToU16Pairs, ih,
        List.cons.injEq]
      exact ⟨by omega, by omega, trivial⟩

/-- C3: the live repacked 16-bit element type (uint16_t, the deprecated
bfloat16 carrier) always stores its fragments as int32 words whose slot
count is ceil(m / 2), m being the slot count of the unpacked bfloat16
fragment with the same (use, rows, cols); and the 16-to-32-bit repacking
preserves bit patterns exactly: reading the repacked words back as 16-bit
values restores the original buffer, with no numeric conversion. -/
theorem repack_invariant :
    (∀ u r c st n, fragResolve ElemType.uint16 u r c = some (st, n) →
      st = ElemType.int32 ∧
        ∃ m, fragResolve ElemType.bfloat16 u r c = some (ElemType.bfloat16, m) ∧
          n = (m + 1) / 2) ∧
    (∀ xs : List Nat, (∀ x ∈ xs, x < 65536) → xs.length % 2 = 0 →
      unpackWordsToU16Pairs (packU16PairsToWords xs) = xs) := by
  refine ⟨?_, repack_roundtrip⟩
  intro u r c st n h
  cases u with
  | a =>
      simp only [fragResolve] at h
      split_ifs at h with h1 h2 h3 <;>
        simp only [Option.some.injEq, Prod.mk.injEq, reduceCtorEq] at h
      · obtain ⟨rfl, rfl⟩ := h; obtain ⟨rfl, rfl⟩ := h1
        exact ⟨rfl, 4, by decide, by decide⟩
      · obtain ⟨rfl, rfl⟩ := h; obtain ⟨rfl, rfl⟩ := h2
        exact ⟨rfl, 16, by decide, by decide⟩
      · obtain ⟨rfl, rfl⟩ := h; obtain ⟨rfl, rfl⟩ := h3
        exact ⟨rfl, 8, by decide, by decide⟩
  | b =>
      simp only [fragResolve] at h
      split_ifs at h with h1 h2 h3 <;>
        simp only [Option.some.injEq, Prod.mk.injEq, reduceCtorEq] at h
      · obtain ⟨rfl, rfl⟩ := h; obtain ⟨rfl, rfl⟩ := h1
        exact ⟨rfl, 16, by decide, by decide⟩
      · obtain ⟨rfl, rfl⟩ := h; obtain ⟨rfl, rfl⟩ := h2
        exact ⟨rfl, 4, by decide, by decide⟩
      · obtain ⟨rfl, rfl⟩ := h; obtain ⟨rfl, rfl⟩ := h3
        exact ⟨rfl, 8, by decide, by decide⟩
  | accumulator =>
      simp only [fragResolve] at h
      exact absurd h (by simp)

/-- C3 witness: the repack relation applied at the uint16 A-fragment of
shape 8 x 16 (2 int32 slots against 4 bfloat16 slots), and the
bit-reinterpretation roundtrip applied at the concrete buffer [3, 5]. -/
theorem repack_invariant_witness :
    (ElemType.int32 = ElemType.int32 ∧
      ∃ m, fragResolve ElemType.bfloat16 MatrixUse.a 8 16 =
          some (ElemType.bfloat16, m) ∧ (2 : Nat) = (m + 1) / 2) ∧
    unpackWordsToU16Pairs (packU16PairsToWords [3, 5]) = [3, 5] :=
  ⟨repack_invariant.1 MatrixUse.a 8 16 ElemType.int32 2 (by decide),
   repack_invariant.2 [3, 5] (by decide) rfl⟩

/-- C8: every accumulator fragment in the table stores its elements in the
logical arithmetic element type itself; no accumulator entry is repacked
into a different storage word. -/
theorem accumulator_storage_logical :
    ∀ t r c st n,
      fragResolve t MatrixUse.accumulator r c = some (st, n) → st = t := by
  intro t r c st n h
  cases t <;> simp only [fragResolve] at h <;> (try split_ifs at h) <;>
    simp_all

/-- C8 witness: the float accumulator fragment of shape 16 x 16 stores
float. -/
theorem accumulator_storage_logical_witness :
    ElemType.float = ElemType.float :=
  accumulator_storage_logical ElemType.float 16 16 ElemType.float 8
    (by decide)

/-- Compilation/execution context distinguished by the preprocessor guards
of the source: host (no __SYCL_DEVICE_ONLY__), CUDA device
(__SYCL_DEVICE_ONLY__ together with __NVPTX__), or a non-CUDA device
(__SYCL_DEVICE_ONLY__ without __NVPTX__). -/
inductive ExecCtx
  | host
  | cudaDevice
  | otherDevice
deriving DecidableEq, Repr

/-- joint_matrix_load of matrix-tensorcore.hpp (lines 581-598): the device
implementation runs only under `__SYCL_DEVICE_ONLY__ && __NVPTX__`; every
other context takes the #else branch, which throws a runtime_error naming
the unsupported situation and produces no output. -/
def joint_matrix_load_api (ctx : ExecCtx) (t : ElemType) (u : MatrixUse)
    (r c : Nat) (l : MatrixLayout) : LoadOutcome :=
  match ctx with
  | ExecCtx.cudaDevice => joint_matrix_load_device t u r c l
  | _ => LoadOutcome.err MatrixError.HostExecution

/-- joint_matrix_store of matrix-tensorcore.hpp (lines 600-620), guarded
the same way. -/
def joint_matrix_store_api (ctx : ExecCtx) (t : ElemType) (r c : Nat)
    (l : MatrixLayout) : StoreOutcome :=
  match ctx with
  | ExecCtx.cudaDevice => joint_matrix_store_device t r c l
  | _ => StoreOutcome.err MatrixError.HostExecution

/-- joint_matrix_mad of matrix-tensorcore.hpp (lines 622-643): the template
signature types both the A and the B fragment with the same parameter T1,
so a call whose multiplicand element types differ has no matching overload
and is rejected at compile time (TypeMismatch), before the context guard is
even reached; with matching types, the device implementation runs only
under `__SYCL_DEVICE_ONLY__ && __NVPTX__` and every other context throws. -/
def joint_matrix_mad_api (ctx : ExecCtx) (ta tb t2 : ElemType) (M K N : Nat)
    (la lb lc : MatrixLayout) : MadOutcome :=
  if ta = tb then
    match ctx with
    | ExecCtx.cudaDevice => joint_matrix_mad_device ta t2 M K N la lb lc
    | _ => MadOutcome.err MatrixError.HostExecution
  else MadOutcome.err MatrixError.TypeMismatch

/-- Outcome of an operation of the unified API (matrix-unified.hpp), whose
device implementations (load_accumulator_cuda, joint_matrix_mad_cuda, ...)
live outside the provided sources: on the CUDA path the call is delegated
to that backend. -/
inductive UnifiedOutcome
  | delegated
  | silent
  | err (e : MatrixError)
deriving DecidableEq, Repr

/-- joint_matrix_fill of matrix-unified.hpp (lines 19-38): under
__SYCL_DEVICE_ONLY__ the body is compiled, but the assignment is guarded by
__NVPTX__ alone, so a non-CUDA device compilation performs no operation and
raises no error; only the non-device (host) branch throws. -/
def joint_matrix_fill_unified (ctx : ExecCtx) : UnifiedOutcome :=
  match ctx with
  | ExecCtx.cudaDevice => UnifiedOutcome.delegated
  | ExecCtx.otherDevice => UnifiedOutcome.silent
  | ExecCtx.host => UnifiedOutcome.err MatrixError.HostExecution

/-- joint_matrix_load of matrix-unified.hpp (lines 40-93, both overloads):
same guard structure as joint_matrix_fill. -/
def joint_matrix_load_unified (ctx : ExecCtx) : UnifiedOutcome :=
  match ctx with
  | ExecCtx.cudaDevice => UnifiedOutcome.delegated
  | ExecCtx.otherDevice => UnifiedOutcome.silent
  | ExecCtx.host => UnifiedOutcome.err MatrixError.HostExecution

/-- joint_matrix_store of matrix-unified.hpp (lines 95-120): same guard
structure. -/
def joint_matrix_store_unified (ctx : ExecCtx) : UnifiedOutcome :=
  match ctx with
  | ExecCtx.cudaDevice => UnifiedOutcome.delegated
  | ExecCtx.otherDevice => UnifiedOutcome.silent
  | ExecCtx.host => UnifiedOutcome.err MatrixError.HostExecution

/-- joint_matrix_mad of matrix-unified.hpp (lines 122-157): on the CUDA
device path, `if constexpr (is_same<Ta, Tb>)` guards the call to
joint_matrix_mad_cuda, and the else branch fails an assertion
(TypeMismatch) without invoking any hardware path; a non-CUDA device
compilation has an empty body (silent); the host branch throws. -/
def joint_matrix_mad_unified (ctx : ExecCtx) (ta tb : ElemType) : UnifiedOutcome :=
  match ctx with
  | ExecCtx.cudaDevice =>
      if ta = tb then UnifiedOutcome.delegated
      else UnifiedOutcome.err MatrixError.TypeMismatch
  | ExecCtx.otherDevice => UnifiedOutcome.silent
  | ExecCtx.host => UnifiedOutcome.err MatrixError.HostExecution

/-- C4: a multiply-accumulate whose A and B element types differ fails with
a type-mismatch error for every shape, layout and accumulator type, in both
APIs, without reaching any hardware dispatch path. -/
theorem mad_type_mismatch_rejected :
    ∀ ta tb t2 M K N la lb lc ctx, ta ≠ tb →
      joint_matrix_mad_api ctx ta tb t2 M K N la lb lc =
        MadOutcome.err MatrixError.TypeMismatch ∧
      joint_matrix_mad_unified ExecCtx.cudaDevice ta tb =
        UnifiedOutcome.err MatrixError.TypeMismatch := by
  intro ta tb t2 M K N la lb lc ctx h
  constructor
  · unfold joint_matrix_mad_api
    rw [if_neg h]
  · unfold joint_matrix_mad_unified
    rw [if_neg h]

/-- C4 witness: the mismatched pair (half, float) at shape 16 x 16 x 16 on
the CUDA device context. -/
theorem mad_type_mismatch_rejected_witness :
    joint_matrix_mad_api ExecCtx.cudaDevice ElemType.half ElemType.float
        ElemType.float 16 16 16 MatrixLayout.row_major MatrixLayout.row_major
        MatrixLayout.row_major = MadOutcome.err MatrixError.TypeMismatch ∧
      joint_matrix_mad_unified ExecCtx.cudaDevice ElemType.half ElemType.float =
        UnifiedOutcome.err MatrixError.TypeMismatch :=
  mad_type_mismatch_rejected ElemType.half ElemType.float ElemType.float
    16 16 16 MatrixLayout.row_major MatrixLayout.row_major
    MatrixLayout.row_major ExecCtx.cudaDevice (by decide)

/-- C5 (amended): every operation invoked from host (non-device)
compilation throws the host-execution runtime error and produces no
output; the tensorcore-namespace joint_matrix_load / joint_matrix_store /
joint_matrix_mad also throw it in any non-CUDA device context; but the
unified-namespace operations compiled for a non-CUDA device silently
perform no operation instead of raising an error. -/
theorem host_execution_rejected :
    (∀ ctx t u r c l, ctx = ExecCtx.host ∨ ctx = ExecCtx.otherDevice →
      joint_matrix_load_api ctx t u r c l =
        LoadOutcome.err MatrixError.HostExecution) ∧
    (∀ ctx t r c l, ctx = ExecCtx.host ∨ ctx = ExecCtx.otherDevice →
      joint_matrix_store_api ctx t r c l =
        StoreOutcome.err MatrixError.HostExecution) ∧
    (∀ ctx t1 t2 M K N la lb lc, ctx = ExecCtx.host ∨ ctx = ExecCtx.otherDevice →
      joint_matrix_mad_api ctx t1 t1 t2 M K N la lb lc =
        MadOutcome.err MatrixError.HostExecution) ∧
    (joint_matrix_fill_unified ExecCtx.host =
      UnifiedOutcome.err MatrixError.HostExecution) ∧
    (joint_matrix_load_unified ExecCtx.host =
      UnifiedOutcome.err MatrixError.HostExecution) ∧
    (joint_matrix_store_unified ExecCtx.host =
      UnifiedOutcome.err MatrixError.HostExecution) ∧
    (∀ ta tb, joint_matrix_mad_unified ExecCtx.host ta tb =
      UnifiedOutcome.err MatrixError.HostExecution) ∧
    (joint_matrix_fill_unified ExecCtx.otherDevice = UnifiedOutcome.silent) ∧
    (joint_matrix_load_unified ExecCtx.otherDevice = UnifiedOutcome.silent) ∧
    (joint_matrix_store_unified ExecCtx.otherDevice = UnifiedOutcome.silent) ∧
    (∀ ta tb, joint_matrix_mad_unified ExecCtx.otherDevice ta tb =
      UnifiedOutcome.silent) := by
  refine ⟨?_, ?_, ?_, rfl, rfl, rfl, fun ta tb => rfl, rfl, rfl, rfl,
    fun ta tb => rfl⟩
  · rintro ctx t u r c l (rfl | rfl) <;> rfl
  · rintro ctx t r c l (rfl | rfl) <;> rfl
  · rintro ctx t1 t2 M K N la lb lc (rfl | rfl) <;>
      · unfold joint_matrix_mad_api
        rw [if_pos rfl]

/-- C5 witness: the tensorcore joint_matrix_load invoked from the host
context. -/
theorem host_execution_rejected_witness :
    joint_matrix_load_api ExecCtx.host ElemType.half MatrixUse.a 16 16
      MatrixLayout.row_major = LoadOutcome.err MatrixError.HostExecution :=
  host_execution_rejected.1 ExecCtx.host ElemType.half MatrixUse.a 16 16
    MatrixLayout.row_major (Or.inl rfl)

/-- C5 counterexample: the unified joint_matrix_load compiled for a
non-CUDA device does not fail with the host-execution error (it is a
silent no-op), contrary to the claim that every invocation outside a CUDA
device context fails immediately with that error. -/
theorem host_execution_counterexample :
    (joint_matrix_load_unified ExecCtx.otherDevice =
      UnifiedOutcome.err MatrixError.HostExecution) = False :=
  eq_false (by decide)

/-- Per-branch pointer handling of joint_matrix_load_impl::load: the
uint16_t/bfloat16, int8, uint8 and half branches reinterpret the source
pointer to int32 words (reinterpret_cast: a view of the same bytes, no
element-wise conversion); the int32/float/double branches pass the pointer
through directly. -/
def loadSrcReinterpreted : ElemType → Bool
  | ElemType.uint16 | ElemType.bfloat16 | ElemType.int8 | ElemType.uint8 |
    ElemType.half => true
  | _ => false

/-- The argument tuple of the intrinsic call performed by
joint_matrix_load_impl::load. -/
structure LoadCall where
  op : LoadOpcode
  srcReinterpretedToWord : Bool
  strideArg : Nat
deriving DecidableEq, Repr

/-- The intrinsic call performed by a joint_matrix_load instantiation: the
opcode selected by the dispatch chain, whether the source pointer was
reinterpreted to the 32-bit storage word type, and the stride argument
passed to the intrinsic.  Every branch of the source passes the caller's
stride through unchanged (matrix-tensorcore.hpp lines 162-317). -/
def load_call (t : ElemType) (u : MatrixUse) (r c : Nat) (l : MatrixLayout)
    (stride : Nat) : Option LoadCall :=
  if layoutOK l then
    (selectLoadOpcode t u r c).map
      (fun op =>
        { op := op, srcReinterpretedToWord := loadSrcReinterpreted t,
          strideArg := stride })
  else none

/-- C6 (amended): the marshaller passes the caller's stride, measured in
logical elements, unchanged to the hardware instruction (no division by the
repacking factor occurs anywhere in the source), and for the repacked
16-bit element types the source pointer is reinterpreted to the 32-bit
word type rather than element-wise converted. -/
theorem load_stride_passthrough :
    ∀ t u r c l stride call, load_call t u r c l stride = some call →
      call.strideArg = stride ∧
      ((t = ElemType.uint16 ∨ t = ElemType.bfloat16 ∨ t = ElemType.half) →
        call.srcReinterpretedToWord = true) := by
  intro t u r c l stride call h
  unfold load_call at h
  split_ifs at h
  cases hsel : selectLoadOpcode t u r c with
  | none => rw [hsel] at h; simp at h
  | some op =>
      rw [hsel] at h
      simp only [Option.map_some', Option.some.injEq] at h
      subst h
      refine ⟨rfl, ?_⟩
      rintro (rfl | rfl | rfl) <;> rfl

/-- C6 witness: the uint16 A-fragment load of shape 16 x 16 with caller
stride 16 passes stride 16 to the intrinsic and reinterprets the source
pointer. -/
theorem load_stride_passthrough_witness :
    LoadCall.strideArg
        { op := LoadOpcode.mma_bf16_m16n16k16_ld_a,
          srcReinterpretedToWord := true, strideArg := 16 } = 16 ∧
      ((ElemType.uint16 = ElemType.uint16 ∨
          ElemType.uint16 = ElemType.bfloat16 ∨
          ElemType.uint16 = ElemType.half) →
        LoadCall.srcReinterpretedToWord
          { op := LoadOpcode.mma_bf16_m16n16k16_ld_a,
            srcReinterpretedToWord := true, strideArg := 16 } = true) :=
  load_stride_passthrough ElemType.uint16 MatrixUse.a 16 16
    MatrixLayout.row_major 16
    { op := LoadOpcode.mma_bf16_m16n16k16_ld_a,
      srcReinterpretedToWord := true, strideArg := 16 } (by decide)

/-- C6 counterexample: the claim predicts that the stride passed on to
pointer arithmetic is the caller's stride divided by the repacking factor
(16 / 2 = 8 here); the code passes 16 unchanged. -/
theorem load_stride_counterexample :
    (Option.map LoadCall.strideArg
        (load_call ElemType.uint16 MatrixUse.a 16 16 MatrixLayout.row_major 16) =
      some (16 / 2)) = False :=
  eq_false (by decide)

/-- A joint_matrix fragment value: its compile-time descriptor together
with its per-lane slot contents. -/
structure Fragment where
  elem : ElemType
  matUse : MatrixUse
  rows : Nat
  cols : Nat
  layout : MatrixLayout
  data : List Int
deriving DecidableEq, Repr

/-- joint_matrix_mad_impl::mad (matrix-tensorcore.hpp lines 465-572)
receives A, B and C by value and declares a fresh fragment D whose C++ type
is exactly C's type (joint_matrix of T2, accumulator, M, N, LayoutC); the
selected intrinsic writes only D's slots, reading A, B and C.  The hardware
semantics of the intrinsic is abstracted as the parameter hw.  The model
returns the produced D together with the caller's three fragments after
the call; by-value parameters cannot alias or mutate the caller's
objects. -/
def joint_matrix_mad_exec
    (hw : Option MadOpcode → List Int → List Int → List Int → List Int)
    (A B C : Fragment) : Fragment × Fragment × Fragment × Fragment :=
  let D : Fragment :=
    { elem := C.elem, matUse := MatrixUse.accumulator, rows := C.rows,
      cols := C.cols, layout := C.layout,
      data := hw (selectMadOpcode A.elem C.elem A.rows A.cols C.cols)
        A.data B.data C.data }
  (D, A, B, C)

/-- C7: for every hardware semantics and all fragments, joint_matrix_mad
leaves the caller's accumulator fragment C unchanged and returns a fresh
result fragment carrying C's descriptor (same element type, accumulator
use, same shape, same layout). -/
theorem mad_value_semantics :
    ∀ hw A B C,
      (joint_matrix_mad_exec hw A B C).2.2.2 = C ∧
      (joint_matrix_mad_exec hw A B C).1.elem = C.elem ∧
      (joint_matrix_mad_exec hw A B C).1.matUse = MatrixUse.accumulator ∧
      (joint_matrix_mad_exec hw A B C).1.rows = C.rows ∧
      (joint_matrix_mad_exec hw A B C).1.cols = C.cols ∧
      (joint_matrix_mad_exec hw A B C).1.layout = C.layout :=
  fun _ _ _ _ => ⟨rfl, rfl, rfl, rfl, rfl, rfl⟩

/-- Host path of round_to_tf32 (matrix-unified.hpp lines 159-172), on the
32-bit pattern of the input float: reinterpret the input reference to
uint32, add 0x1000 with 32-bit wraparound, mask with 0xFFFFE000, and
reinterpret back; the input reference is only read, never written, which
the model reflects by returning the input bits unchanged as the second
component. -/
def round_to_tf32_host (aBits : Nat) : Nat × Nat :=
  let tmp1 := (aBits + 4096) % 4294967296
  let tmp2 := tmp1 &&& 4294959104
  (tmp2, aBits)

/-- C10: for every 32-bit input pattern, the host path of round_to_tf32
returns a pattern whose bottom 13 bits are zero, equal to the input pattern
plus 0x1000 (mod 2^32) masked with 0xFFFFE000, and leaves the input
unmodified. -/
theorem round_to_tf32_host_bits :
    ∀ aBits : Nat, aBits < 4294967296 →
      (round_to_tf32_host aBits).1 % 8192 = 0 ∧
      (round_to_tf32_host aBits).1 =
        ((aBits + 4096) % 4294967296) &&& 4294959104 ∧
      (round_to_tf32_host aBits).2 = aBits := by
  intro a ha
  refine ⟨?_, rfl, rfl⟩
  show (((a + 4096) % 4294967296) &&& 4294959104) % 8192 = 0
  have h13 : (8192 : Nat) = 2 ^ 13 := by norm_num
  rw [h13]
  apply Nat.eq_of_testBit_eq
  intro i
  rw [Nat.testBit_mod_two_pow, Nat.testBit_land, Nat.zero_testBit]
  by_cases hi : i < 13
  · have hm : Nat.testBit 4294959104 i = false := by
      interval_cases i <;> decide
    simp [hm]
  · simp [hi]

/-- C10 witness: the bit pattern 0x3F800000 of 1.0f rounds to itself with
the bottom 13 bits zero and the input left unmodified. -/
theorem round_to_tf32_host_bits_witness :
    (round_to_tf32_host 1065353216).1 % 8192 = 0 ∧
      (round_to_tf32_host 1065353216).1 =
        ((1065353216 + 4096) % 4294967296) &&& 4294959104 ∧
      (round_to_tf32_host 1065353216).2 = 1065353216 :=
  round_to_tf32_host_bits 1065353216 (by norm_num)

/-- Status codes of the unified-runtime HIP adapter (usm_p2p.cpp): success,
the invalid-enumeration rejection of the propName switch, and translated
driver error codes. -/
inductive UrResult
  | success
  | errorInvalidEnumeration
  | errorCode (n : Nat)
deriving DecidableEq, Repr

/-- Adapter-level state: the currently active device context (by device
id), plus a count of driver calls made, used to state that a failing driver
call is performed exactly once and never retried. -/
structure P2PState where
  active : Option Nat
  driverCalls : Nat
deriving DecidableEq, Repr

/-- Modelled from the spec: `ScopedContext active(commandDevice)` is defined
in context.hpp, which is not among the provided sources; per the spec it
sets the command device's context active for the duration of the call and
restores the previously active context when the scope exits, on success and
error paths alike (RAII).  urUsmP2PEnablePeerAccessExp (usm_p2p.cpp lines
12-34): inside a try block scoped by ScopedContext,
UR_CHECK_ERROR(hipCtxEnablePeerAccess(...)) performs exactly one driver
call, throwing its translated ur_result_t on failure; the catch block turns
that thrown code into the returned status.  The driver call's outcome is
the parameter.  No exception escapes (the function totally returns a
status) and the driver call is never retried. -/
def urUsmP2PEnablePeerAccessExp (driver : Except UrResult Unit)
    (commandDevice : Nat) (s : P2PState) : UrResult × P2PState :=
  let prior := s.active
  let s1 : P2PState := { active := some commandDevice,
                         driverCalls := s.driverCalls + 1 }
  match driver with
  | Except.ok _ => (UrResult.success, { s1 with active := prior })
  | Except.error e => (e, { s1 with active := prior })

/-- urUsmP2PDisablePeerAccessExp (usm_p2p.cpp lines 38-60): identical
structure around hipCtxDisablePeerAccess. -/
def urUsmP2PDisablePeerAccessExp (driver : Except UrResult Unit)
    (commandDevice : Nat) (s : P2PState) : UrResult × P2PState :=
  let prior := s.active
  let s1 : P2PState := { active := some commandDevice,
                         driverCalls := s.driverCalls + 1 }
  match driver with
  | Except.ok _ => (UrResult.success, { s1 with active := prior })
  | Except.error e => (e, { s1 with active := prior })

/-- The propName values of urUsmP2PPeerAccessGetInfoExp: the two mapped
enumerators, and any other value, which the default branch of the switch
rejects. -/
inductive PeerInfo
  | accessSupported
  | atomicsSupported
  | invalidEnum
deriving DecidableEq, Repr

/-- urUsmP2PPeerAccessGetInfoExp (usm_p2p.cpp lines 64-126): scopes the
context, maps propName to a HIP attribute or returns
UR_RESULT_ERROR_INVALID_ENUMERATION from the default branch (still inside
the scope, which RAII unwinds), then performs exactly one
hipDeviceGetP2PAttribute driver call; a thrown error is caught and
returned, success returns the queried value through ReturnValue. -/
def urUsmP2PPeerAccessGetInfoExp (driver : Except UrResult Int)
    (commandDevice : Nat) (propName : PeerInfo) (s : P2PState) :
    UrResult × Option Int × P2PState :=
  let prior := s.active
  let s1 : P2PState := { s with active := some commandDevice }
  match propName with
  | PeerInfo.invalidEnum =>
      (UrResult.errorInvalidEnumeration, none, { s1 with active := prior })
  | _ =>
      let s2 : P2PState := { s1 with driverCalls := s1.driverCalls + 1 }
      match driver with
      | Except.error e => (e, none, { s2 with active := prior })
      | Except.ok v => (UrResult.success, some v, { s2 with active := prior })

/-- C9: each peer-access adapter call restores the prior active context on
exit whatever the driver outcome; a failing driver call's code is returned
as the status (never escaping as an exception, since the functions totally
return a status value) and the driver is called exactly once (never
retried); the invalid-enumeration rejection of the query happens before any
driver call and still restores the context. -/
theorem peer_access_scoping :
    (∀ driver dev s,
      (urUsmP2PEnablePeerAccessExp driver dev s).2.active = s.active ∧
      (urUsmP2PEnablePeerAccessExp driver dev s).2.driverCalls =
        s.driverCalls + 1 ∧
      (∀ e, driver = Except.error e →
        (urUsmP2PEnablePeerAccessExp driver dev s).1 = e) ∧
      (driver = Except.ok () →
        (urUsmP2PEnablePeerAccessExp driver dev s).1 = UrResult.success)) ∧
    (∀ driver dev s,
      (urUsmP2PDisablePeerAccessExp driver dev s).2.active = s.active ∧
      (urUsmP2PDisablePeerAccessExp driver dev s).2.driverCalls =
        s.driverCalls + 1 ∧
      (∀ e, driver = Except.error e →
        (urUsmP2PDisablePeerAccessExp driver dev s).1 = e) ∧
      (driver = Except.ok () →
        (urUsmP2PDisablePeerAccessExp driver dev s).1 = UrResult.success)) ∧
    (∀ driver dev p s,
      (urUsmP2PPeerAccessGetInfoExp driver dev p s).2.2.active = s.active ∧
      (p = PeerInfo.invalidEnum →
        (urUsmP2PPeerAccessGetInfoExp driver dev p s).1 =
          UrResult.errorInvalidEnumeration ∧
        (urUsmP2PPeerAccessGetInfoExp driver dev p s).2.2.driverCalls =
          s.driverCalls) ∧
      (p ≠ PeerInfo.invalidEnum →
        (urUsmP2PPeerAccessGetInfoExp driver dev p s).2.2.driverCalls =
          s.driverCalls + 1 ∧
        (∀ e, driver = Except.error e →
          (urUsmP2PPeerAccessGetInfoExp driver dev p s).1 = e))) := by
  refine ⟨?_, ?_, ?_⟩
  · intro driver dev s
    cases driver with
    | ok v => exact ⟨rfl, rfl, fun e he => by simp at he, fun _ => rfl⟩
    | error e =>
        exact ⟨rfl, rfl, fun f hf => by cases hf; rfl, fun he => by simp at he⟩
  · intro driver dev s
    cases driver with
    | ok v => exact ⟨rfl, rfl, fun e he => by simp at he, fun _ => rfl⟩
    | error e =>
        exact ⟨rfl, rfl, fun f hf => by cases hf; rfl, fun he => by simp at he⟩
  · intro driver dev p s
    cases p with
    | invalidEnum =>
        exact ⟨rfl, fun _ => ⟨rfl, rfl⟩, fun hp => absurd rfl hp⟩
    | accessSupported =>
        cases driver with
        | ok v =>
            exact ⟨rfl, fun hp => by simp at hp,
              fun _ => ⟨rfl, fun e he => by simp at he⟩⟩
        | error e =>
            exact ⟨rfl, fun hp => by simp at hp,
              fun _ => ⟨rfl, fun f hf => by cases hf; rfl⟩⟩
    | atomicsSupported =>
        cases driver with
        | ok v =>
            exact ⟨rfl, fun hp => by simp at hp,
              fun _ => ⟨rfl, fun e he => by simp at he⟩⟩
        | error e =>
            exact ⟨rfl, fun hp => by simp at hp,
              fun _ => ⟨rfl, fun f hf => by cases hf; rfl⟩⟩

/-- C9 witness: a query with a valid enumerator and a failing driver call
performs exactly one driver call and returns the driver's error code. -/
theorem peer_access_scoping_witness :
    (urUsmP2PPeerAccessGetInfoExp (Except.error (UrResult.errorCode 999)) 0
        PeerInfo.accessSupported
        { active := some 7, driverCalls := 3 }).2.2.driverCalls = 3 + 1 ∧
    (∀ e, Except.error (UrResult.errorCode 999) =
        (Except.error e : Except UrResult Int) →
      (urUsmP2PPeerAccessGetInfoExp (Except.error (UrResult.errorCode 999)) 0
          PeerInfo.accessSupported
          { active := some 7, driverCalls := 3 }).1 = e) :=
  (peer_access_scoping.2.2 (Except.error (UrResult.errorCode 999)) 0
      PeerInfo.accessSupported
      { active := some 7, driverCalls := 3 }).2.2 (by decide)

end TensorCoreSpec
